import Mathlib

/-!
Verification of the VirtualTerminal xlocale wrapper shim
(`Sources/xlocale_wrapper/xlocale_wrapper.c` and its header).

The shim consists of three forwarding functions over the host C library
(`wcwidth_l`, `newlocale`, `freelocale`) plus the Apple-only constant
`LC_CTYPE_MASK`.  The shim itself is embedded literally, parameterized over
an abstract host-library interface.  The host library's behaviour is not
part of this repository, so it is modelled from the specification
(definitions marked `Modelled from the spec:`), and claims about observable
width/locale behaviour are settled against that model.

Conventions of the embedding:
* `wchar_t` is `Int` (it is a signed integral type on the relevant hosts);
* `locale_t` / `void *` handles are `Nat`, with `0` standing for the null
  pointer; the C casts `(locale_t)locale` are identities in the model;
* the host library's hidden allocation state is threaded explicitly as a
  `LocaleState` value.
-/

/-- Abstract interface of the wrapped host library, over an abstract state
type `σ` standing for the library's hidden allocation state.
`wcwidth_l` is stateless per the host contract; `newlocale` returns a handle
(`0` = null/failure) and the updated state; `freelocale` updates state. -/
structure XLocaleHost (σ : Type) where
  wcwidth_l : Int → Nat → Int
  newlocale : Int → String → Nat → σ → Nat × σ
  freelocale : Nat → σ → σ

/-- Embedding of `vt_wcwidth_l` (xlocale_wrapper.c lines 7-9):
`return wcwidth_l(wc, (locale_t)locale);` — a plain forwarding call. -/
def vt_wcwidth_l {σ : Type} (H : XLocaleHost σ) (wc : Int) (locale : Nat) : Int :=
  H.wcwidth_l wc locale

/-- Embedding of `vt_newlocale` (xlocale_wrapper.c lines 11-13):
`return newlocale(mask, locale, (locale_t)base);` — a plain forwarding call,
with the host state threaded explicitly. -/
def vt_newlocale {σ : Type} (H : XLocaleHost σ) (mask : Int) (locale : String)
    (base : Nat) (s : σ) : Nat × σ :=
  H.newlocale mask locale base s

/-- Embedding of `vt_freelocale` (xlocale_wrapper.c lines 15-17):
`freelocale((locale_t)locale);` — a plain forwarding call, with the host
state threaded explicitly. -/
def vt_freelocale {σ : Type} (H : XLocaleHost σ) (locale : Nat) (s : σ) : σ :=
  H.freelocale locale s

/-- Embedding of the constant `LC_CTYPE_MASK` defined (under `#if __APPLE__`)
in xlocale_wrapper.h lines 19-21 as `(1 << 1)`. -/
def LC_CTYPE_MASK : Int := 1 <<< 1

/-- Modelled from the spec: non-printable code points, which the host
`wcwidth_l` maps to `-1` — ASCII control codes `0x01..0x1F` and `0x7F`
(spec §4.2 edge cases), together with the other conventionally
non-printable values (negative values, C1 controls, surrogates, values
beyond the Unicode range). -/
def isNonPrintable (c : Int) : Prop :=
  c < 0 ∨ (1 ≤ c ∧ c ≤ 0x1F) ∨ c = 0x7F ∨ (0x80 ≤ c ∧ c ≤ 0x9F) ∨
    (0xD800 ≤ c ∧ c ≤ 0xDFFF) ∨ 0x10FFFF < c

instance (c : Int) : Decidable (isNonPrintable c) := by
  unfold isNonPrintable; exact inferInstance

/-- Modelled from the spec: combining / zero-width code points, which the
host `wcwidth_l` maps to `0` (spec §4.2) — representative combining-mark
and zero-width ranges (combining diacritical marks, including the
spec's example U+0301). -/
def isCombining (c : Int) : Prop :=
  (0x0300 ≤ c ∧ c ≤ 0x036F) ∨ (0x1AB0 ≤ c ∧ c ≤ 0x1AFF) ∨
    (0x1DC0 ≤ c ∧ c ≤ 0x1DFF) ∨ (0x200B ≤ c ∧ c ≤ 0x200F) ∨
    (0x20D0 ≤ c ∧ c ≤ 0x20FF) ∨ (0xFE20 ≤ c ∧ c ≤ 0xFE2F)

instance (c : Int) : Decidable (isCombining c) := by
  unfold isCombining; exact inferInstance

/-- Modelled from the spec: East-Asian wide / fullwidth code points, which
the host `wcwidth_l` maps to `2` (spec §3, §4.2) — representative wide
ranges, including the CJK range containing the spec's example U+4E2D. -/
def isWideChar (c : Int) : Prop :=
  (0x1100 ≤ c ∧ c ≤ 0x115F) ∨ (0x2E80 ≤ c ∧ c ≤ 0xA4CF) ∨
    (0xAC00 ≤ c ∧ c ≤ 0xD7A3) ∨ (0xF900 ≤ c ∧ c ≤ 0xFAFF) ∨
    (0xFE30 ≤ c ∧ c ≤ 0xFE6F) ∨ (0xFF00 ≤ c ∧ c ≤ 0xFF60) ∨
    (0xFFE0 ≤ c ∧ c ≤ 0xFFE6) ∨ (0x20000 ≤ c ∧ c ≤ 0x3FFFD)

instance (c : Int) : Decidable (isWideChar c) := by
  unfold isWideChar; exact inferInstance

/-- Modelled from the spec: the host `wcwidth_l` width classification of a
single code point (spec §4.2) — NUL returns `0`, control and otherwise
non-printable code points return `-1`, combining/zero-width return `0`,
wide return `2`, and everything else (including unassigned) defaults
to `1`. -/
def wcwidth_model (c : Int) : Int :=
  if c = 0 then 0
  else if isNonPrintable c then -1
  else if isCombining c then 0
  else if isWideChar c then 2
  else 1

/-- Modelled from the spec: locale names resolvable on the host
(spec §4.1); the spec's scenarios use "en_US.UTF-8" as a resolvable name
and "invalid-locale-name-zzz" as an unresolvable one; "C" and "POSIX" are
resolvable on every host. -/
def resolvableLocale (name : String) : Bool :=
  name == "C" || name == "POSIX" || name == "en_US.UTF-8"

/-- Modelled from the spec: the hidden allocation state of the host locale
library — the number of handles allocated so far (handles count up from 1,
`0` being the null pointer) and the list of live (created, not yet
released) handles. -/
structure LocaleState where
  used : Nat
  live : List Nat
deriving DecidableEq, Repr

/-- The host state before any locale has been created. -/
def initState : LocaleState := ⟨0, []⟩

/-- Modelled from the spec: the error taxonomy of §7. -/
inductive LocaleError where
  | InvalidLocaleName
  | UnsupportedCategoryMask
  | DoubleRelease
  | NullHandle
deriving DecidableEq, Repr

/-- Modelled from the spec: host `newlocale` (spec §4.1 `create`) — on a
resolvable name it allocates a fresh non-null handle; on an unresolvable
name it fails, signalling failure solely by returning the null handle `0`
and leaving the state unchanged. The category mask and the base handle do
not affect the width behaviour modelled here. -/
def newlocale_model (mask : Int) (name : String) (base : Nat)
    (s : LocaleState) : Nat × LocaleState :=
  if resolvableLocale name then
    (s.used + 1, ⟨s.used + 1, (s.used + 1) :: s.live⟩)
  else
    (0, s)

/-- Modelled from the spec: host `freelocale` (spec §4.1 `release`) —
removes the handle from the live set. -/
def freelocale_model (h : Nat) (s : LocaleState) : LocaleState :=
  ⟨s.used, s.live.erase h⟩

/-- Modelled from the spec: host `wcwidth_l` — for a non-null handle the
width is a pure function of the code point (the width classification of
§4.2); querying through the null handle is undefined in the original and
modelled as `-1`. -/
def wcwidth_l_model (c : Int) (h : Nat) : Int :=
  if h = 0 then -1 else wcwidth_model c

/-- The spec-modelled host library, packaged as an `XLocaleHost`. -/
def modelHost : XLocaleHost LocaleState where
  wcwidth_l := wcwidth_l_model
  newlocale := newlocale_model
  freelocale := freelocale_model

/-- Modelled from the spec: §4.1 `create` with the typed error reporting of
§7 — fails with `InvalidLocaleName` exactly when the name is not
resolvable on the host (the model supports every category mask, so
`UnsupportedCategoryMask` does not arise). -/
def create (mask : Int) (name : String) (base : Nat) (s : LocaleState) :
    Except LocaleError (Nat × LocaleState) :=
  if resolvableLocale name then
    Except.ok (s.used + 1, ⟨s.used + 1, (s.used + 1) :: s.live⟩)
  else
    Except.error LocaleError.InvalidLocaleName

/-- Modelled from the spec: §4.1 `release` with the typed error reporting of
§7 — releasing the null handle is `NullHandle`, releasing a handle that is
not live is `DoubleRelease`, otherwise the handle is removed. -/
def release (h : Nat) (s : LocaleState) : Except LocaleError LocaleState :=
  if h = 0 then Except.error LocaleError.NullHandle
  else if h ∈ s.live then Except.ok ⟨s.used, s.live.erase h⟩
  else Except.error LocaleError.DoubleRelease

/-- Modelled from the spec: §4.2 `width_of` with the typed error reporting
of §7 — querying through the null handle or a released handle is
`NullHandle`; on a live handle it returns the width classification and the
unchanged state. -/
def width_of (c : Int) (h : Nat) (s : LocaleState) :
    Except LocaleError (Int × LocaleState) :=
  if h = 0 then Except.error LocaleError.NullHandle
  else if h ∈ s.live then Except.ok (wcwidth_model c, s)
  else Except.error LocaleError.NullHandle

example : wcwidth_model 0x41 = 1 := by decide
example : wcwidth_model 0x4E2D = 2 := by decide
example : wcwidth_model 0x0301 = 0 := by decide
example : wcwidth_model 0 = 0 := by decide
example : wcwidth_model 0x7F = -1 := by decide
example : resolvableLocale "invalid-locale-name-zzz" = false := by decide

lemma wcwidth_model_mem (c : Int) :
    wcwidth_model c = -1 ∨ wcwidth_model c = 0 ∨ wcwidth_model c = 1 ∨
      wcwidth_model c = 2 := by
  unfold wcwidth_model
  split
  · simp
  · split
    · simp
    · split
      · simp
      · split <;> simp

lemma wcwidth_model_printable (c : Int) (hc1 : 0x20 ≤ c) (hc2 : c ≤ 0x7E) :
    wcwidth_model c = 1 := by
  unfold wcwidth_model
  rw [if_neg (by omega), if_neg, if_neg, if_neg]
  · unfold isWideChar; omega
  · unfold isCombining; omega
  · unfold isNonPrintable; omega

lemma wcwidth_model_control (c : Int)
    (hc : (1 ≤ c ∧ c ≤ 0x1F) ∨ c = 0x7F) : wcwidth_model c = -1 := by
  unfold wcwidth_model
  rw [if_neg (by omega), if_pos]
  unfold isNonPrintable; omega

lemma vt_wcwidth_l_model_valid (c : Int) (h : Nat) (hvalid : h ≠ 0) :
    vt_wcwidth_l modelHost c h = wcwidth_model c := by
  show wcwidth_l_model c h = wcwidth_model c
  unfold wcwidth_l_model
  rw [if_neg hvalid]

/-- C1: each wrapper is a trivial forwarding function — for every host
library, `vt_wcwidth_l` returns exactly the host's `wcwidth_l` applied to
its arguments, `vt_newlocale` returns exactly the host's `newlocale`, and
`vt_freelocale` performs exactly the host's `freelocale`; no argument or
result is added, removed or transformed. -/
theorem vt_wrappers_forward (σ : Type) (H : XLocaleHost σ) (wc : Int)
    (l : Nat) (mask : Int) (name : String) (base : Nat) (s : σ) :
    vt_wcwidth_l H wc l = H.wcwidth_l wc l ∧
    vt_newlocale H mask name base s = H.newlocale mask name base s ∧
    vt_freelocale H l s = H.freelocale l s :=
  ⟨rfl, rfl, rfl⟩

/-- C2: for every code point and every valid (non-null) locale handle, the
value returned by `vt_wcwidth_l` over the spec-modelled host lies in
{-1, 0, 1, 2}. -/
theorem vt_wcwidth_l_range (c : Int) (h : Nat) (hvalid : h ≠ 0) :
    vt_wcwidth_l modelHost c h = -1 ∨ vt_wcwidth_l modelHost c h = 0 ∨
      vt_wcwidth_l modelHost c h = 1 ∨ vt_wcwidth_l modelHost c h = 2 := by
  rw [vt_wcwidth_l_model_valid c h hvalid]
  exact wcwidth_model_mem c

theorem vt_wcwidth_l_range_witness :
    (1 : Nat) ≠ 0 ∧
      (vt_wcwidth_l modelHost 0x41 1 = -1 ∨ vt_wcwidth_l modelHost 0x41 1 = 0 ∨
        vt_wcwidth_l modelHost 0x41 1 = 1 ∨ vt_wcwidth_l modelHost 0x41 1 = 2) :=
  ⟨by decide, vt_wcwidth_l_range 0x41 1 (by decide)⟩

/-- C3: for every code point in the inclusive range 0x20..0x7E and every
valid (non-null) locale handle, `vt_wcwidth_l` over the spec-modelled host
returns 1. -/
theorem vt_wcwidth_l_ascii_printable (c : Int) (h : Nat)
    (hc1 : 0x20 ≤ c) (hc2 : c ≤ 0x7E) (hvalid : h ≠ 0) :
    vt_wcwidth_l modelHost c h = 1 := by
  rw [vt_wcwidth_l_model_valid c h hvalid]
  exact wcwidth_model_printable c hc1 hc2

theorem vt_wcwidth_l_ascii_printable_witness :
    (0x20 : Int) ≤ 0x41 ∧ (0x41 : Int) ≤ 0x7E ∧ (1 : Nat) ≠ 0 ∧
      vt_wcwidth_l modelHost 0x41 1 = 1 :=
  ⟨by decide, by decide, by decide,
    vt_wcwidth_l_ascii_printable 0x41 1 (by decide) (by decide) (by decide)⟩

/-- C4: for every valid (non-null) locale handle, `vt_wcwidth_l` over the
spec-modelled host returns 0 at code point 0x00 and -1 on the ASCII
control codes 0x01..0x1F and 0x7F; in particular every result on
{0x00, 0x01..0x1F, 0x7F} lies in {0, -1}. -/
theorem vt_wcwidth_l_control (c : Int) (h : Nat) (hvalid : h ≠ 0) :
    (c = 0 → vt_wcwidth_l modelHost c h = 0) ∧
    ((1 ≤ c ∧ c ≤ 0x1F) ∨ c = 0x7F → vt_wcwidth_l modelHost c h = -1) ∧
    (c = 0 ∨ (1 ≤ c ∧ c ≤ 0x1F) ∨ c = 0x7F →
      vt_wcwidth_l modelHost c h = 0 ∨ vt_wcwidth_l modelHost c h = -1) := by
  rw [vt_wcwidth_l_model_valid c h hvalid]
  refine ⟨fun hc => ?_, fun hc => wcwidth_model_control c hc, fun hc => ?_⟩
  · rw [hc]; decide
  · rcases hc with hc | hc
    · rw [hc]; left; decide
    · right; exact wcwidth_model_control c hc

theorem vt_wcwidth_l_control_witness :
    (1 : Nat) ≠ 0 ∧
      ((0x07 : Int) = 0 → vt_wcwidth_l modelHost 0x07 1 = 0) ∧
      ((1 ≤ (0x07 : Int) ∧ (0x07 : Int) ≤ 0x1F) ∨ (0x07 : Int) = 0x7F →
        vt_wcwidth_l modelHost 0x07 1 = -1) ∧
      ((0x07 : Int) = 0 ∨ (1 ≤ (0x07 : Int) ∧ (0x07 : Int) ≤ 0x1F) ∨
          (0x07 : Int) = 0x7F →
        vt_wcwidth_l modelHost 0x07 1 = 0 ∨ vt_wcwidth_l modelHost 0x07 1 = -1) :=
  ⟨by decide, vt_wcwidth_l_control 0x07 1 (by decide)⟩

/-- C5: end-to-end scenario over the spec-modelled host — creating an
"en_US.UTF-8" locale with `vt_newlocale(LC_CTYPE_MASK, ..., null)` from
the initial state yields a non-null handle under which 'A' (0x41) has
width 1, U+4E2D has width 2 and U+0301 has width 0, and the subsequent
release of the handle succeeds (both as the spec-level `release` and as
the shim's `vt_freelocale`). -/
theorem vt_end_to_end_scenario :
    (vt_newlocale modelHost LC_CTYPE_MASK "en_US.UTF-8" 0 initState).fst ≠ 0 ∧
    vt_wcwidth_l modelHost 0x41
      (vt_newlocale modelHost LC_CTYPE_MASK "en_US.UTF-8" 0 initState).fst = 1 ∧
    vt_wcwidth_l modelHost 0x4E2D
      (vt_newlocale modelHost LC_CTYPE_MASK "en_US.UTF-8" 0 initState).fst = 2 ∧
    vt_wcwidth_l modelHost 0x0301
      (vt_newlocale modelHost LC_CTYPE_MASK "en_US.UTF-8" 0 initState).fst = 0 ∧
    release (vt_newlocale modelHost LC_CTYPE_MASK "en_US.UTF-8" 0 initState).fst
      (vt_newlocale modelHost LC_CTYPE_MASK "en_US.UTF-8" 0 initState).snd =
      Except.ok ⟨1, []⟩ ∧
    vt_freelocale modelHost
      (vt_newlocale modelHost LC_CTYPE_MASK "en_US.UTF-8" 0 initState).fst
      (vt_newlocale modelHost LC_CTYPE_MASK "en_US.UTF-8" 0 initState).snd =
      ⟨1, []⟩ :=
  ⟨by decide, rfl, rfl, rfl, rfl, rfl⟩

/-- C6: over the spec-modelled host, `vt_newlocale` signals failure solely
by returning the null handle 0 — for every mask, name, base and state it
returns 0 exactly when the spec-level `create` fails (with some error),
and a non-zero return means `create` succeeds; there is no other
error-reporting channel (the embedding is a total function). -/
theorem vt_newlocale_failure_sentinel (mask : Int) (name : String)
    (base : Nat) (s : LocaleState) :
    ((vt_newlocale modelHost mask name base s).fst = 0 ↔
      ∃ e, create mask name base s = Except.error e) ∧
    ((vt_newlocale modelHost mask name base s).fst ≠ 0 →
      ∃ r, create mask name base s = Except.ok r) := by
  unfold vt_newlocale modelHost newlocale_model create
  by_cases hname : resolvableLocale name
  · simp [hname]
  · simp [hname]

/-- C7: spec-level locale creation fails with `InvalidLocaleName` whenever
the requested locale name is not resolvable on the host; the witness
instantiates this at the name "invalid-locale-name-zzz". -/
theorem create_invalid_name (mask : Int) (name : String) (base : Nat)
    (s : LocaleState) (hname : resolvableLocale name = false) :
    create mask name base s = Except.error LocaleError.InvalidLocaleName := by
  unfold create
  rw [hname]
  simp

theorem create_invalid_name_witness :
    resolvableLocale "invalid-locale-name-zzz" = false ∧
      create LC_CTYPE_MASK "invalid-locale-name-zzz" 0 initState =
        Except.error LocaleError.InvalidLocaleName :=
  ⟨by decide,
    create_invalid_name LC_CTYPE_MASK "invalid-locale-name-zzz" 0 initState
      (by decide)⟩

/-- C8: `width_of` is deterministic and side-effect-free — whenever a width
query on an unreleased handle succeeds, it leaves the host state exactly
unchanged, repeating the query with the same inputs returns the identical
result, and the returned width is a pure function of the code point. -/
theorem width_of_pure (c : Int) (h : Nat) (s : LocaleState) (w : Int)
    (s2 : LocaleState) (hq : width_of c h s = Except.ok (w, s2)) :
    s2 = s ∧ width_of c h s2 = Except.ok (w, s2) ∧ w = wcwidth_model c := by
  unfold width_of at hq ⊢
  by_cases h0 : h = 0
  · rw [if_pos h0] at hq; exact absurd hq (by simp)
  · rw [if_neg h0] at hq
    by_cases hm : h ∈ s.live
    · rw [if_pos hm] at hq
      have hw : wcwidth_model c = w ∧ s = s2 := by
        simpa using hq
      obtain ⟨hw1, hw2⟩ := hw
      subst hw2
      rw [if_neg h0, if_pos hm, hw1]
      exact ⟨rfl, rfl, rfl⟩
    · rw [if_neg hm] at hq; exact absurd hq (by simp)

theorem width_of_pure_witness :
    width_of 0x41 1 ⟨1, [1]⟩ = Except.ok (1, ⟨1, [1]⟩) ∧
      ((⟨1, [1]⟩ : LocaleState) = ⟨1, [1]⟩ ∧
        width_of 0x41 1 ⟨1, [1]⟩ = Except.ok (1, ⟨1, [1]⟩) ∧
        (1 : Int) = wcwidth_model 0x41) :=
  ⟨rfl, width_of_pure 0x41 1 ⟨1, [1]⟩ 1 ⟨1, [1]⟩ rfl⟩

/-- C9: the constant `LC_CTYPE_MASK`, defined on Apple platforms as
`(1 << 1)`, equals 2. -/
theorem LC_CTYPE_MASK_value : LC_CTYPE_MASK = 2 := by decide

/-- C10: no wrapper validates its handle argument — for every handle,
including the null handle 0 and any previously released handle,
`vt_wcwidth_l` and `vt_freelocale` pass the handle unchanged to the host
library with no guard, so the shim itself never produces a `NullHandle` or
`DoubleRelease` error. -/
theorem vt_no_handle_validation (σ : Type) (H : XLocaleHost σ) (wc : Int)
    (l : Nat) (s : σ) :
    vt_wcwidth_l H wc 0 = H.wcwidth_l wc 0 ∧
    vt_freelocale H 0 s = H.freelocale 0 s ∧
    vt_wcwidth_l H wc l = H.wcwidth_l wc l ∧
    vt_freelocale H l s = H.freelocale l s :=
  ⟨rfl, rfl, rfl, rfl⟩
